import Mathlib

/-!
Verification of the MathOpt model validator
(`ortools/math_opt/validators/model_validator.cc`).

The file embeds the validator pipeline shallowly: `absl::Status` becomes
`Except Err Unit` where `Err` records the error-taxonomy kind together with the
chain of context annotations produced by the `RETURN_IF_ERROR(...) << "msg"`
macro; proto messages become structures of lists; `double` values become a
four-way classification (NaN, plus-infinity, minus-infinity, finite) because
the validator only ever classifies values, never computes with them.

Leaf validators (ids/scalar/sparse-vector/sparse-matrix/name validators), the
`IdUpdateValidator` lifecycle tracker, `ModelSummary` and the proto message
layouts are declared in headers that are not part of the source under
verification; they are modelled from the specification, as indicated by the
doc comments of the respective definitions.
-/

/-- Error taxonomy of the validators, following section 7 of the design
specification. -/
inductive ErrKind where
  | malformedIdSequence
  | invalidValue
  | danglingReference
  | shapeViolation
  | duplicateName
  | nameMismatch
  | invalidDeletion
  | idCollision
  deriving DecidableEq, Repr

/-- A structured failure: the taxonomy kind of the innermost failing check plus
the list of context annotations, outermost annotation first. -/
structure Err where
  kind : ErrKind
  context : List String
  deriving DecidableEq, Repr

/-- Model of `absl::Status`: success or a structured failure. -/
abbrev Status := Except Err Unit

instance : DecidableEq Status := fun a b =>
  match a, b with
  | .ok x, .ok y => .isTrue (by cases x; cases y; rfl)
  | .error e, .error f =>
      if h : e = f then .isTrue (by rw [h]) else .isFalse (by simp [h])
  | .ok _, .error _ => .isFalse (by simp)
  | .error _, .ok _ => .isFalse (by simp)

/-- Prepend one context annotation to an error. -/
def Err.push (e : Err) (msg : String) : Err :=
  { kind := e.kind, context := msg :: e.context }

/-- Model of `RETURN_IF_ERROR(s) << msg`: annotate the error of `s`, if any,
with the context message `msg`. -/
def withCtx (msg : String) : Status → Status
  | .ok u => .ok u
  | .error e => .error (e.push msg)

/-- Sequencing of two checks: run `a`; on failure return its error, otherwise
run `b`.  This is the semantics of consecutive `RETURN_IF_ERROR` statements. -/
def andThen (a b : Status) : Status :=
  match a with
  | .ok _ => b
  | .error e => .error e

/-- Classification of a C++ `double` as seen by the validators: the checks only
ever distinguish NaN, the two infinities and finite values. -/
inductive FVal where
  | nan
  | posInf
  | negInf
  | fin (z : Int)
  deriving DecidableEq, Repr

/-- Modelled from the spec: the scalar-check policy
`{allow_positive_infinity: bool, allow_negative_infinity: bool}` consumed by
`CheckValues` / `CheckIdsAndValues` (declared in the scalar validator's header,
which is outside the source under verification). -/
structure DoubleOptions where
  allow_positive_infinity : Bool
  allow_negative_infinity : Bool
  deriving DecidableEq, Repr

/-- Modelled from the spec: the field defaults of `DoubleOptions`.  The header
carrying the defaults is missing; the data-model invariant (lower bounds are
never plus-infinity, upper bounds never minus-infinity, the other infinity is
legal on each side) and the end-to-end example (a variable with bounds
`[0, inf]` and a constraint with bounds `[-inf, 5]` validates) force the
unmentioned flag of every designated initializer in the source to default to
`true` (allowed).  The lone sentence of the interface section claiming both
infinities default to disallowed is inconsistent with that example. -/
def defaultDoubleOptions : DoubleOptions := ⟨true, true⟩

/-- The designated initializer `{.allow_positive_infinity = false}`: the
unmentioned negative-infinity flag keeps its default. -/
def optNoPosInf : DoubleOptions := ⟨false, true⟩

/-- The designated initializer `{.allow_negative_infinity = false}`: the
unmentioned positive-infinity flag keeps its default. -/
def optNoNegInf : DoubleOptions := ⟨true, false⟩

/-- Both flags written out `false`, as in the objective-coefficient checks. -/
def optNoInf : DoubleOptions := ⟨false, false⟩

/-- Whether a single value satisfies a policy: NaN never does, an infinity only
when its flag allows it, finite values always do. -/
def FVal.okFor (v : FVal) (o : DoubleOptions) : Bool :=
  match v with
  | .nan => false
  | .posInf => o.allow_positive_infinity
  | .negInf => o.allow_negative_infinity
  | .fin _ => true

/-- The largest representable entity ID (IDs are signed 64-bit integers). -/
def kMaxId : Int := 2 ^ 63 - 1

/-- Strict increase of a list of IDs, as a boolean scan. -/
def strictIncr : List Int → Bool
  | [] => true
  | [_] => true
  | a :: b :: t => decide (a < b) && strictIncr (b :: t)

/-- Modelled from the spec: `CheckIdsRangeAndStrictlyIncreasing(ids)` from the
ids validator (header only; not in the source under verification) fails if any
ID is negative, exceeds the maximum representable ID, or the sequence is not
strictly increasing. -/
def CheckIdsRangeAndStrictlyIncreasing (ids : List Int) : Status :=
  if (∀ i ∈ ids, 0 ≤ i ∧ i ≤ kMaxId) ∧ strictIncr ids = true then .ok ()
  else .error ⟨.malformedIdSequence, []⟩

/-- Modelled from the spec: `CheckValues(view, options, name)` from the
sparse-vector validator checks every value of the view against the policy;
NaN always fails, a disallowed infinity fails.  The field name is recorded in
the failure. -/
def CheckValues (values : List FVal) (o : DoubleOptions) (name : String) :
    Status :=
  if ∀ v ∈ values, v.okFor o = true then .ok ()
  else .error ⟨.invalidValue, [name]⟩

/-- Modelled from the spec: `CheckIdsAndValues(view, options)` checks the view's
ID sequence (range and strict increase) and then its values against the
policy. -/
def CheckIdsAndValues (ids : List Int) (values : List FVal)
    (o : DoubleOptions) : Status :=
  andThen (CheckIdsRangeAndStrictlyIncreasing ids)
    (if ∀ v ∈ values, v.okFor o = true then .ok ()
     else .error ⟨.invalidValue, []⟩)

/-- Modelled from the spec: `CheckScalarNoNanNoInf(value)` fails on NaN and both
infinities. -/
def CheckScalarNoNanNoInf (v : FVal) : Status :=
  match v with
  | .fin _ => .ok ()
  | _ => .error ⟨.invalidValue, []⟩

/-- Modelled from the spec: `CheckSortedIdsSubset(subset, superset)` fails,
naming the first offender, when an entry of `subset` is missing from
`superset`. -/
def CheckSortedIdsSubset (sub sup : List Int) : Status :=
  if ∀ i ∈ sub, i ∈ sup then .ok ()
  else .error ⟨.danglingReference, []⟩

/-- A sparse double matrix: parallel arrays of row IDs, column IDs and
coefficient values.  Modelled from the spec's description of the sparse
matrix message (the proto definition is not in the source under
verification). -/
structure SparseDoubleMatrixProto where
  row_ids : List Int
  column_ids : List Int
  coefficients : List FVal
  deriving DecidableEq, Repr

/-- Modelled from the spec: `SparseMatrixValid(matrix, enforce_upper_triangular)`
checks equal-length arrays, non-negative IDs, no duplicate (row, column) pair
and, when requested, the upper-triangular shape (every entry has row ID at most
its column ID). -/
def SparseMatrixValid (m : SparseDoubleMatrixProto)
    (enforce_upper_triangular : Bool) : Status :=
  if m.row_ids.length = m.column_ids.length ∧
      m.column_ids.length = m.coefficients.length then
    if (∀ r ∈ m.row_ids, 0 ≤ r) ∧ (∀ c ∈ m.column_ids, 0 ≤ c) then
      if (m.row_ids.zip m.column_ids).Nodup then
        if enforce_upper_triangular = true →
            ∀ p ∈ m.row_ids.zip m.column_ids, p.1 ≤ p.2 then .ok ()
        else .error ⟨.shapeViolation, []⟩
      else .error ⟨.shapeViolation, []⟩
    else .error ⟨.shapeViolation, []⟩
  else .error ⟨.shapeViolation, []⟩

/-- Modelled from the spec: `SparseMatrixIdsAreKnown(matrix, rows, cols)` checks
that every row ID of the matrix is in the row universe and every column ID in
the column universe. -/
def SparseMatrixIdsAreKnown (m : SparseDoubleMatrixProto)
    (rowUniverse colUniverse : List Int) : Status :=
  if (∀ r ∈ m.row_ids, r ∈ rowUniverse) ∧
      (∀ c ∈ m.column_ids, c ∈ colUniverse) then .ok ()
  else .error ⟨.danglingReference, []⟩

/-- Modelled from the spec: `CheckNameVector(view, check_names)` verifies that a
name vector is either empty or aligned with the ID vector and, when
name-checking is enabled, that the names are unique within the vector. -/
def CheckNameVector (ids : List Int) (names : List String)
    (check_names : Bool) : Status :=
  if names = [] ∨ names.length = ids.length then
    if check_names = true → names.Nodup then .ok ()
    else .error ⟨.duplicateName, []⟩
  else .error ⟨.nameMismatch, []⟩

/-- Modelled from the spec: the per-kind slice of a `ModelSummary` — the sorted
live entity IDs of the prior accepted state plus the name registry the caller
associates with them. -/
structure KindSummary where
  ids : List Int
  names : List String
  deriving DecidableEq, Repr

/-- Modelled from the spec: `CheckNewNames(registry, view)` verifies the new
names are unique among themselves and absent from the prior registry. -/
def CheckNewNames (registry : KindSummary) (names : List String) : Status :=
  if names.Nodup ∧ ∀ n ∈ names, n ∉ registry.names then .ok ()
  else .error ⟨.duplicateName, []⟩

/-- Modelled from the spec: `ModelSummary` holds the live-ID universe (and name
registry) of each entity kind as of the last accepted state. -/
structure ModelSummary where
  «variables» : KindSummary
  linear_constraints : KindSummary
  deriving DecidableEq, Repr

/-- Modelled from the spec: the `IdUpdateValidator` lifecycle tracker is built
from the prior summary's ID sequence, the patch's deletion list and the patch's
new-ID list.  Its interface is declared in a header outside the source under
verification. -/
structure IdUpdateValidator where
  existing : List Int
  deleted : List Int
  added : List Int
  deriving DecidableEq, Repr

/-- The deletion list is strictly increasing and every deleted ID is present in
the existing universe. -/
def IdUpdateValidator.delOk (v : IdUpdateValidator) : Prop :=
  strictIncr v.deleted = true ∧ ∀ d ∈ v.deleted, d ∈ v.existing

/-- The added list is strictly increasing, disjoint from the existing universe
and disjoint from the deletion list. -/
def IdUpdateValidator.addOk (v : IdUpdateValidator) : Prop :=
  strictIncr v.added = true ∧ (∀ a ∈ v.added, a ∉ v.existing) ∧
    ∀ a ∈ v.added, a ∉ v.deleted

instance (v : IdUpdateValidator) : Decidable v.delOk :=
  decidable_of_iff (strictIncr v.deleted = true ∧ ∀ d ∈ v.deleted,
    d ∈ v.existing) Iff.rfl

instance (v : IdUpdateValidator) : Decidable v.addOk :=
  decidable_of_iff (strictIncr v.added = true ∧ (∀ a ∈ v.added,
    a ∉ v.existing) ∧ ∀ a ∈ v.added, a ∉ v.deleted) Iff.rfl

/-- Modelled from the spec: `IsValid` diagnoses invalid deletions first, then ID
collisions. -/
def IdUpdateValidator.IsValid (v : IdUpdateValidator) : Status :=
  if v.delOk then
    if v.addOk then .ok () else .error ⟨.idCollision, []⟩
  else .error ⟨.invalidDeletion, []⟩

/-- Membership in the "currently live" (not deleted) view: present in the
existing universe and not deleted by the patch. -/
def IdUpdateValidator.inNotDeleted (v : IdUpdateValidator) (i : Int) : Prop :=
  i ∈ v.existing ∧ i ∉ v.deleted

/-- Membership in the "final" view: live after deletions, or newly added. -/
def IdUpdateValidator.inFinal (v : IdUpdateValidator) (i : Int) : Prop :=
  (i ∈ v.existing ∧ i ∉ v.deleted) ∨ i ∈ v.added

instance (v : IdUpdateValidator) (i : Int) : Decidable (v.inNotDeleted i) :=
  decidable_of_iff (i ∈ v.existing ∧ i ∉ v.deleted) Iff.rfl

instance (v : IdUpdateValidator) (i : Int) : Decidable (v.inFinal i) :=
  decidable_of_iff ((i ∈ v.existing ∧ i ∉ v.deleted) ∨ i ∈ v.added) Iff.rfl

/-- Modelled from the spec: every entry of the sorted query sequence must be in
the existing universe and not deleted. -/
def IdUpdateValidator.CheckSortedIdsSubsetOfNotDeleted
    (v : IdUpdateValidator) (ids : List Int) : Status :=
  if ∀ i ∈ ids, v.inNotDeleted i then .ok ()
  else .error ⟨.danglingReference, []⟩

/-- Modelled from the spec: every entry of the sorted query sequence must be in
the final universe (existing minus deleted, union added). -/
def IdUpdateValidator.CheckSortedIdsSubsetOfFinal
    (v : IdUpdateValidator) (ids : List Int) : Status :=
  if ∀ i ∈ ids, v.inFinal i then .ok ()
  else .error ⟨.danglingReference, []⟩

/-- Modelled from the spec: the unsorted variant of the final-view query, with
the same membership semantics. -/
def IdUpdateValidator.CheckIdsSubsetOfFinal
    (v : IdUpdateValidator) (ids : List Int) : Status :=
  if ∀ i ∈ ids, v.inFinal i then .ok ()
  else .error ⟨.danglingReference, []⟩

/-- Modelled from the spec: a sparse double vector — parallel ID and value
arrays (the proto definition is not in the source under verification). -/
structure SparseDoubleVectorProto where
  ids : List Int
  values : List FVal
  deriving DecidableEq, Repr

/-- Modelled from the spec: the variables block of a snapshot — parallel ID,
bound, integrality and (optional) name arrays.  Integrality flags are numeric
by the schema's convention. -/
structure VariablesProto where
  ids : List Int
  lower_bounds : List FVal
  upper_bounds : List FVal
  integers : List FVal
  names : List String
  deriving DecidableEq, Repr

/-- Modelled from the spec: the objective of a snapshot — offset, sparse linear
coefficients and sparse upper-triangular quadratic coefficients. -/
structure ObjectiveProto where
  offset : FVal
  linear_coefficients : SparseDoubleVectorProto
  quadratic_coefficients : SparseDoubleMatrixProto
  deriving DecidableEq, Repr

/-- Modelled from the spec: the linear constraints block of a snapshot. -/
structure LinearConstraintsProto where
  ids : List Int
  lower_bounds : List FVal
  upper_bounds : List FVal
  names : List String
  deriving DecidableEq, Repr

/-- Modelled from the spec: a complete model snapshot. -/
structure ModelProto where
  «variables» : VariablesProto
  objective : ObjectiveProto
  linear_constraints : LinearConstraintsProto
  linear_constraint_matrix : SparseDoubleMatrixProto
  deriving DecidableEq, Repr

/-- Modelled from the spec: the per-variable field updates of a patch. -/
structure VariableUpdatesProto where
  lower_bounds : SparseDoubleVectorProto
  upper_bounds : SparseDoubleVectorProto
  integers : SparseDoubleVectorProto
  deriving DecidableEq, Repr

/-- Modelled from the spec: the objective deltas of a patch. -/
structure ObjectiveUpdatesProto where
  offset_update : FVal
  linear_coefficients : SparseDoubleVectorProto
  quadratic_coefficients : SparseDoubleMatrixProto
  deriving DecidableEq, Repr

/-- Modelled from the spec: the per-constraint field updates of a patch. -/
structure LinearConstraintUpdatesProto where
  lower_bounds : SparseDoubleVectorProto
  upper_bounds : SparseDoubleVectorProto
  deriving DecidableEq, Repr

/-- Modelled from the spec: a patch — deletions, field updates, new-entity
blocks, objective deltas and constraint-matrix deltas. -/
structure ModelUpdateProto where
  deleted_variable_ids : List Int
  deleted_linear_constraint_ids : List Int
  variable_updates : VariableUpdatesProto
  linear_constraint_updates : LinearConstraintUpdatesProto
  new_variables : VariablesProto
  new_linear_constraints : LinearConstraintsProto
  objective_updates : ObjectiveUpdatesProto
  linear_constraint_matrix_updates : SparseDoubleMatrixProto
  deriving DecidableEq, Repr

/-- Embedding of `VariablesValid` from the source: ID check (annotated), bound
checks with the one-sided infinity policies, integrality values with the
default policy, then the name vector. -/
def VariablesValid (v : VariablesProto) (check_names : Bool) : Status :=
  andThen (withCtx "Bad variable ids"
      (CheckIdsRangeAndStrictlyIncreasing v.ids)) <|
  andThen (CheckValues v.lower_bounds optNoPosInf "lower_bounds") <|
  andThen (CheckValues v.upper_bounds optNoNegInf "upper_bounds") <|
  andThen (CheckValues v.integers defaultDoubleOptions "integers") <|
  CheckNameVector v.ids v.names check_names

/-- Embedding of `VariableUpdatesValid` from the source. -/
def VariableUpdatesValid (u : VariableUpdatesProto) : Status :=
  andThen (withCtx "Bad lower bounds"
      (CheckIdsAndValues u.lower_bounds.ids u.lower_bounds.values
        optNoPosInf)) <|
  andThen (withCtx "Bad upper bounds"
      (CheckIdsAndValues u.upper_bounds.ids u.upper_bounds.values
        optNoNegInf)) <|
  withCtx "Bad integers"
    (CheckIdsAndValues u.integers.ids u.integers.values defaultDoubleOptions)

/-- Embedding of `VariableUpdatesValidForState` from the source: all three
field-update blocks are checked against the not-deleted view. -/
def VariableUpdatesValidForState (u : VariableUpdatesProto)
    (id_validator : IdUpdateValidator) : Status :=
  andThen (withCtx "lower bound update on invalid variable id"
      (id_validator.CheckSortedIdsSubsetOfNotDeleted u.lower_bounds.ids)) <|
  andThen (withCtx "upper bound update on invalid variable id"
      (id_validator.CheckSortedIdsSubsetOfNotDeleted u.upper_bounds.ids)) <|
  withCtx "integer update on invalid variable id"
    (id_validator.CheckSortedIdsSubsetOfNotDeleted u.integers.ids)

/-- Embedding of `ObjectiveValid` from the source. -/
def ObjectiveValid (o : ObjectiveProto) (variable_ids : List Int) : Status :=
  andThen (withCtx "Objective offset invalid"
      (CheckScalarNoNanNoInf o.offset)) <|
  andThen (withCtx "Linear objective coefficients bad"
      (CheckIdsAndValues o.linear_coefficients.ids
        o.linear_coefficients.values optNoInf)) <|
  andThen (withCtx "Objective.linear_coefficients.ids not found in Variables.ids"
      (CheckSortedIdsSubset o.linear_coefficients.ids variable_ids)) <|
  andThen (withCtx "Objective.quadratic_coefficients invalid"
      (SparseMatrixValid o.quadratic_coefficients true)) <|
  withCtx "Objective.quadratic_coefficients invalid"
    (SparseMatrixIdsAreKnown o.quadratic_coefficients variable_ids
      variable_ids)

/-- Embedding of `ObjectiveUpdatesValid` from the source; it does not check any
requirement on the IDs beyond well-formedness. -/
def ObjectiveUpdatesValid (o : ObjectiveUpdatesProto) : Status :=
  andThen (withCtx "Offset update invalid"
      (CheckScalarNoNanNoInf o.offset_update)) <|
  andThen (withCtx "Linear objective coefficients bad"
      (CheckIdsAndValues o.linear_coefficients.ids
        o.linear_coefficients.values optNoInf)) <|
  withCtx "Objective.quadratic_coefficients invalid"
    (SparseMatrixValid o.quadratic_coefficients true)

/-- Embedding of `ObjectiveUpdatesValidForModel` from the source: linear
coefficient IDs and quadratic row IDs use the sorted final-view query, the
quadratic column IDs the unsorted final-view query. -/
def ObjectiveUpdatesValidForModel (o : ObjectiveUpdatesProto)
    (id_validator : IdUpdateValidator) : Status :=
  andThen (withCtx "Linear coefficients ids not found in variable ids"
      (id_validator.CheckSortedIdsSubsetOfFinal o.linear_coefficients.ids)) <|
  andThen (withCtx "Quadratic coefficient ids bad"
      (id_validator.CheckSortedIdsSubsetOfFinal
        o.quadratic_coefficients.row_ids)) <|
  withCtx "Quadratic coefficient ids bad"
    (id_validator.CheckIdsSubsetOfFinal o.quadratic_coefficients.column_ids)

/-- Embedding of `LinearConstraintsValid` from the source. -/
def LinearConstraintsValid (lc : LinearConstraintsProto)
    (check_names : Bool) : Status :=
  andThen (withCtx "Bad linear constraint ids"
      (CheckIdsRangeAndStrictlyIncreasing lc.ids)) <|
  andThen (CheckValues lc.lower_bounds optNoPosInf "lower_bounds") <|
  andThen (CheckValues lc.upper_bounds optNoNegInf "upper_bounds") <|
  CheckNameVector lc.ids lc.names check_names

/-- Embedding of `LinearConstraintUpdatesValid` from the source. -/
def LinearConstraintUpdatesValid (u : LinearConstraintUpdatesProto) : Status :=
  andThen (withCtx "Bad lower bounds"
      (CheckIdsAndValues u.lower_bounds.ids u.lower_bounds.values
        optNoPosInf)) <|
  withCtx "Bad upper bounds"
    (CheckIdsAndValues u.upper_bounds.ids u.upper_bounds.values optNoNegInf)

/-- Embedding of `LinearConstraintUpdatesValidForState` from the source: both
bound-update blocks are checked against the not-deleted view. -/
def LinearConstraintUpdatesValidForState (u : LinearConstraintUpdatesProto)
    (id_validator : IdUpdateValidator) : Status :=
  andThen (withCtx "lower bound update on invalid linear constraint id"
      (id_validator.CheckSortedIdsSubsetOfNotDeleted u.lower_bounds.ids)) <|
  withCtx "upper bound update on invalid linear constraint id"
    (id_validator.CheckSortedIdsSubsetOfNotDeleted u.upper_bounds.ids)

/-- Embedding of `LinearConstraintMatrixIdsValidForUpdate` from the source: row
IDs against the final constraint universe, column IDs against the final
variable universe (unsorted variant). -/
def LinearConstraintMatrixIdsValidForUpdate (m : SparseDoubleMatrixProto)
    (linear_constraint_id_validator variable_id_validator :
      IdUpdateValidator) : Status :=
  andThen (withCtx "Unknown linear_constraint_id"
      (linear_constraint_id_validator.CheckSortedIdsSubsetOfFinal
        m.row_ids)) <|
  withCtx "Unknown variable_id"
    (variable_id_validator.CheckIdsSubsetOfFinal m.column_ids)

/-- Embedding of `ValidateModel` from the source: variables, objective, linear
constraints, constraint-matrix shape, constraint-matrix cross references, each
failure wrapped with its section label. -/
def ValidateModel (m : ModelProto) (check_names : Bool) : Status :=
  andThen (withCtx "Model.variables are invalid."
      (VariablesValid m.variables check_names)) <|
  andThen (withCtx "Model.objective is invalid"
      (ObjectiveValid m.objective m.variables.ids)) <|
  andThen (withCtx "Model.linear_constraints are invalid"
      (LinearConstraintsValid m.linear_constraints check_names)) <|
  andThen (withCtx "Model.linear_constraint_matrix invalid"
      (SparseMatrixValid m.linear_constraint_matrix false)) <|
  withCtx "Model.linear_constraint_matrix ids are inconsistent"
    (SparseMatrixIdsAreKnown m.linear_constraint_matrix
      m.linear_constraints.ids m.variables.ids)

/-- Embedding of `ValidateModelUpdate` from the source. -/
def ValidateModelUpdate (u : ModelUpdateProto) (check_names : Bool) : Status :=
  andThen (withCtx "ModelUpdateProto.deleted_linear_constraint_ids invalid"
      (CheckIdsRangeAndStrictlyIncreasing
        u.deleted_linear_constraint_ids)) <|
  andThen (withCtx "ModelUpdateProto.deleted_variable_ids invalid"
      (CheckIdsRangeAndStrictlyIncreasing u.deleted_variable_ids)) <|
  andThen (withCtx "ModelUpdateProto.variable_updates invalid"
      (VariableUpdatesValid u.variable_updates)) <|
  andThen (withCtx "ModelUpdateProto.linear_constraint_updates invalid"
      (LinearConstraintUpdatesValid u.linear_constraint_updates)) <|
  andThen (withCtx "ModelUpdateProto.new_variables invalid"
      (VariablesValid u.new_variables check_names)) <|
  andThen (withCtx "ModelUpdateProto.new_linear_constraints invalid"
      (LinearConstraintsValid u.new_linear_constraints check_names)) <|
  andThen (withCtx "ModelUpdateProto.objective_update invalid"
      (ObjectiveUpdatesValid u.objective_updates)) <|
  withCtx "Model.linear_constraint_matrix_updates invalid"
    (SparseMatrixValid u.linear_constraint_matrix_updates false)

/-- Embedding of `ValidateModelUpdateAndSummary` from the source.  The source
calls `ValidateModelUpdate(model_update)` with no second argument, so the
structural stage runs with the default value of `check_names` from the
function's declaration.  Modelled from the spec: that declaration lives in a
header outside the source under verification, so the default is abstracted
here as the explicit parameter `hdrDefault` instead of being fixed to a
value. -/
def ValidateModelUpdateAndSummary (hdrDefault : Bool) (u : ModelUpdateProto)
    (model_summary : ModelSummary) (check_names : Bool) : Status :=
  andThen (ValidateModelUpdate u hdrDefault) <|
  andThen (withCtx "Invalid new or deleted variable id"
      (IdUpdateValidator.IsValid
        ⟨model_summary.variables.ids, u.deleted_variable_ids,
          u.new_variables.ids⟩)) <|
  andThen (withCtx "Invalid new or deleted linear constraint id"
      (IdUpdateValidator.IsValid
        ⟨model_summary.linear_constraints.ids,
          u.deleted_linear_constraint_ids,
          u.new_linear_constraints.ids⟩)) <|
  andThen (withCtx "Invalid variable update"
      (VariableUpdatesValidForState u.variable_updates
        ⟨model_summary.variables.ids, u.deleted_variable_ids,
          u.new_variables.ids⟩)) <|
  andThen (withCtx "Invalid linear constraint update"
      (LinearConstraintUpdatesValidForState u.linear_constraint_updates
        ⟨model_summary.linear_constraints.ids,
          u.deleted_linear_constraint_ids,
          u.new_linear_constraints.ids⟩)) <|
  andThen (withCtx "Invalid objective update"
      (ObjectiveUpdatesValidForModel u.objective_updates
        ⟨model_summary.variables.ids, u.deleted_variable_ids,
          u.new_variables.ids⟩)) <|
  andThen (withCtx "Invalid linear constraint matrix update"
      (LinearConstraintMatrixIdsValidForUpdate
        u.linear_constraint_matrix_updates
        ⟨model_summary.linear_constraints.ids,
          u.deleted_linear_constraint_ids,
          u.new_linear_constraints.ids⟩
        ⟨model_summary.variables.ids, u.deleted_variable_ids,
          u.new_variables.ids⟩)) <|
  andThen (if check_names = true ∧ u.new_variables.names ≠ [] then
      withCtx "Bad new variable names"
        (CheckNewNames model_summary.variables u.new_variables.names)
    else .ok ()) <|
  (if check_names = true ∧ u.new_linear_constraints.names ≠ [] then
      withCtx "Bad new linear constraint names"
        (CheckNewNames model_summary.linear_constraints
          u.new_linear_constraints.names)
    else .ok ())

theorem withCtx_ok_iff (msg : String) (s : Status) :
    withCtx msg s = .ok () ↔ s = .ok () := by
  cases s with
  | ok u => cases u; simp [withCtx]
  | error e => simp [withCtx]

theorem withCtx_error (msg : String) {s : Status} {e : Err}
    (h : s = .error e) : withCtx msg s = .error (e.push msg) := by
  subst h; rfl

theorem andThen_ok_iff (a b : Status) :
    andThen a b = .ok () ↔ a = .ok () ∧ b = .ok () := by
  cases a with
  | ok u => cases u; simp [andThen]
  | error e => simp [andThen]

theorem andThen_error_left {a : Status} (b : Status) {e : Err}
    (h : a = .error e) : andThen a b = .error e := by
  subst h; rfl

theorem andThen_ok_left {a : Status} (b : Status) (h : a = .ok ()) :
    andThen a b = b := by
  subst h; rfl

theorem ite_status_ok_iff {P : Prop} [Decidable P] (e : Err) :
    (if P then (.ok () : Status) else .error e) = .ok () ↔ P := by
  split_ifs with h <;> simp [h]

theorem guard_status_ok_iff {P : Prop} [Decidable P] (s : Status) :
    (if P then s else (.ok () : Status)) = .ok () ↔ (P → s = .ok ()) := by
  split_ifs with h <;> simp [h]

theorem CheckIdsRangeAndStrictlyIncreasing_ok_iff (ids : List Int) :
    CheckIdsRangeAndStrictlyIncreasing ids = .ok () ↔
      (∀ i ∈ ids, 0 ≤ i ∧ i ≤ kMaxId) ∧ strictIncr ids = true := by
  simp [CheckIdsRangeAndStrictlyIncreasing, ite_status_ok_iff]

theorem CheckValues_ok_iff (values : List FVal) (o : DoubleOptions)
    (name : String) :
    CheckValues values o name = .ok () ↔ ∀ v ∈ values, v.okFor o = true := by
  simp [CheckValues, ite_status_ok_iff]

theorem CheckIdsAndValues_ok_iff (ids : List Int) (values : List FVal)
    (o : DoubleOptions) :
    CheckIdsAndValues ids values o = .ok () ↔
      ((∀ i ∈ ids, 0 ≤ i ∧ i ≤ kMaxId) ∧ strictIncr ids = true) ∧
        ∀ v ∈ values, v.okFor o = true := by
  simp [CheckIdsAndValues, andThen_ok_iff,
    CheckIdsRangeAndStrictlyIncreasing_ok_iff, ite_status_ok_iff]

theorem CheckScalarNoNanNoInf_ok_iff (v : FVal) :
    CheckScalarNoNanNoInf v = .ok () ↔ ∃ z, v = .fin z := by
  cases v <;> simp [CheckScalarNoNanNoInf]

theorem CheckSortedIdsSubset_ok_iff (sub sup : List Int) :
    CheckSortedIdsSubset sub sup = .ok () ↔ ∀ i ∈ sub, i ∈ sup := by
  simp [CheckSortedIdsSubset, ite_status_ok_iff]

theorem SparseMatrixValid_ok_iff (m : SparseDoubleMatrixProto)
    (enforce : Bool) :
    SparseMatrixValid m enforce = .ok () ↔
      (m.row_ids.length = m.column_ids.length ∧
        m.column_ids.length = m.coefficients.length) ∧
      ((∀ r ∈ m.row_ids, 0 ≤ r) ∧ (∀ c ∈ m.column_ids, 0 ≤ c)) ∧
      (m.row_ids.zip m.column_ids).Nodup ∧
      (enforce = true → ∀ p ∈ m.row_ids.zip m.column_ids, p.1 ≤ p.2) := by
  unfold SparseMatrixValid
  split_ifs with h1 h2 h3 h4
  · exact iff_of_true rfl ⟨h1, h2, h3, h4⟩
  · exact iff_of_false (by simp) (fun h => h4 h.2.2.2)
  · exact iff_of_false (by simp) (fun h => h3 h.2.2.1)
  · exact iff_of_false (by simp) (fun h => h2 h.2.1)
  · exact iff_of_false (by simp) (fun h => h1 h.1)

theorem SparseMatrixIdsAreKnown_ok_iff (m : SparseDoubleMatrixProto)
    (rows cols : List Int) :
    SparseMatrixIdsAreKnown m rows cols = .ok () ↔
      (∀ r ∈ m.row_ids, r ∈ rows) ∧ ∀ c ∈ m.column_ids, c ∈ cols := by
  simp [SparseMatrixIdsAreKnown, ite_status_ok_iff]

theorem CheckNameVector_ok_iff (ids : List Int) (names : List String)
    (cn : Bool) :
    CheckNameVector ids names cn = .ok () ↔
      (names = [] ∨ names.length = ids.length) ∧
        (cn = true → names.Nodup) := by
  unfold CheckNameVector
  split_ifs with h1 h2 <;> simp_all

theorem CheckNewNames_ok_iff (registry : KindSummary) (names : List String) :
    CheckNewNames registry names = .ok () ↔
      names.Nodup ∧ ∀ n ∈ names, n ∉ registry.names := by
  simp [CheckNewNames, ite_status_ok_iff]

theorem IsValid_ok_iff (v : IdUpdateValidator) :
    v.IsValid = .ok () ↔ v.delOk ∧ v.addOk := by
  unfold IdUpdateValidator.IsValid
  split_ifs with h1 h2 <;> simp_all

theorem IsValid_invalidDeletion_iff (v : IdUpdateValidator) :
    v.IsValid = .error ⟨.invalidDeletion, []⟩ ↔ ¬ v.delOk := by
  unfold IdUpdateValidator.IsValid
  split_ifs with h1 h2 <;> simp_all

theorem IsValid_idCollision_iff (v : IdUpdateValidator) :
    v.IsValid = .error ⟨.idCollision, []⟩ ↔ v.delOk ∧ ¬ v.addOk := by
  unfold IdUpdateValidator.IsValid
  split_ifs with h1 h2 <;> simp_all

theorem CheckSortedIdsSubsetOfNotDeleted_ok_iff (v : IdUpdateValidator)
    (ids : List Int) :
    v.CheckSortedIdsSubsetOfNotDeleted ids = .ok () ↔
      ∀ i ∈ ids, i ∈ v.existing ∧ i ∉ v.deleted := by
  simp [IdUpdateValidator.CheckSortedIdsSubsetOfNotDeleted,
    IdUpdateValidator.inNotDeleted, ite_status_ok_iff]

theorem CheckSortedIdsSubsetOfFinal_ok_iff (v : IdUpdateValidator)
    (ids : List Int) :
    v.CheckSortedIdsSubsetOfFinal ids = .ok () ↔
      ∀ i ∈ ids, (i ∈ v.existing ∧ i ∉ v.deleted) ∨ i ∈ v.added := by
  simp only [IdUpdateValidator.CheckSortedIdsSubsetOfFinal,
    IdUpdateValidator.inFinal, ite_status_ok_iff]

theorem CheckIdsSubsetOfFinal_ok_iff (v : IdUpdateValidator)
    (ids : List Int) :
    v.CheckIdsSubsetOfFinal ids = .ok () ↔
      ∀ i ∈ ids, (i ∈ v.existing ∧ i ∉ v.deleted) ∨ i ∈ v.added := by
  simp only [IdUpdateValidator.CheckIdsSubsetOfFinal,
    IdUpdateValidator.inFinal, ite_status_ok_iff]

theorem VariablesValid_ok_iff (v : VariablesProto) (cn : Bool) :
    VariablesValid v cn = .ok () ↔
      CheckIdsRangeAndStrictlyIncreasing v.ids = .ok () ∧
      CheckValues v.lower_bounds optNoPosInf "lower_bounds" = .ok () ∧
      CheckValues v.upper_bounds optNoNegInf "upper_bounds" = .ok () ∧
      CheckValues v.integers defaultDoubleOptions "integers" = .ok () ∧
      CheckNameVector v.ids v.names cn = .ok () := by
  simp [VariablesValid, andThen_ok_iff, withCtx_ok_iff]

theorem VariableUpdatesValid_ok_iff (u : VariableUpdatesProto) :
    VariableUpdatesValid u = .ok () ↔
      CheckIdsAndValues u.lower_bounds.ids u.lower_bounds.values optNoPosInf
        = .ok () ∧
      CheckIdsAndValues u.upper_bounds.ids u.upper_bounds.values optNoNegInf
        = .ok () ∧
      CheckIdsAndValues u.integers.ids u.integers.values defaultDoubleOptions
        = .ok () := by
  simp [VariableUpdatesValid, andThen_ok_iff, withCtx_ok_iff]

theorem VariableUpdatesValidForState_ok_iff (u : VariableUpdatesProto)
    (v : IdUpdateValidator) :
    VariableUpdatesValidForState u v = .ok () ↔
      v.CheckSortedIdsSubsetOfNotDeleted u.lower_bounds.ids = .ok () ∧
      v.CheckSortedIdsSubsetOfNotDeleted u.upper_bounds.ids = .ok () ∧
      v.CheckSortedIdsSubsetOfNotDeleted u.integers.ids = .ok () := by
  simp [VariableUpdatesValidForState, andThen_ok_iff, withCtx_ok_iff]

theorem ObjectiveValid_ok_iff (o : ObjectiveProto) (vids : List Int) :
    ObjectiveValid o vids = .ok () ↔
      CheckScalarNoNanNoInf o.offset = .ok () ∧
      CheckIdsAndValues o.linear_coefficients.ids o.linear_coefficients.values
        optNoInf = .ok () ∧
      CheckSortedIdsSubset o.linear_coefficients.ids vids = .ok () ∧
      SparseMatrixValid o.quadratic_coefficients true = .ok () ∧
      SparseMatrixIdsAreKnown o.quadratic_coefficients vids vids = .ok () := by
  simp [ObjectiveValid, andThen_ok_iff, withCtx_ok_iff]

theorem ObjectiveUpdatesValid_ok_iff (o : ObjectiveUpdatesProto) :
    ObjectiveUpdatesValid o = .ok () ↔
      CheckScalarNoNanNoInf o.offset_update = .ok () ∧
      CheckIdsAndValues o.linear_coefficients.ids o.linear_coefficients.values
        optNoInf = .ok () ∧
      SparseMatrixValid o.quadratic_coefficients true = .ok () := by
  simp [ObjectiveUpdatesValid, andThen_ok_iff, withCtx_ok_iff]

theorem ObjectiveUpdatesValidForModel_ok_iff (o : ObjectiveUpdatesProto)
    (v : IdUpdateValidator) :
    ObjectiveUpdatesValidForModel o v = .ok () ↔
      v.CheckSortedIdsSubsetOfFinal o.linear_coefficients.ids = .ok () ∧
      v.CheckSortedIdsSubsetOfFinal o.quadratic_coefficients.row_ids
        = .ok () ∧
      v.CheckIdsSubsetOfFinal o.quadratic_coefficients.column_ids = .ok () := by
  simp [ObjectiveUpdatesValidForModel, andThen_ok_iff, withCtx_ok_iff]

theorem LinearConstraintsValid_ok_iff (lc : LinearConstraintsProto)
    (cn : Bool) :
    LinearConstraintsValid lc cn = .ok () ↔
      CheckIdsRangeAndStrictlyIncreasing lc.ids = .ok () ∧
      CheckValues lc.lower_bounds optNoPosInf "lower_bounds" = .ok () ∧
      CheckValues lc.upper_bounds optNoNegInf "upper_bounds" = .ok () ∧
      CheckNameVector lc.ids lc.names cn = .ok () := by
  simp [LinearConstraintsValid, andThen_ok_iff, withCtx_ok_iff]

theorem LinearConstraintUpdatesValid_ok_iff
    (u : LinearConstraintUpdatesProto) :
    LinearConstraintUpdatesValid u = .ok () ↔
      CheckIdsAndValues u.lower_bounds.ids u.lower_bounds.values optNoPosInf
        = .ok () ∧
      CheckIdsAndValues u.upper_bounds.ids u.upper_bounds.values optNoNegInf
        = .ok () := by
  simp [LinearConstraintUpdatesValid, andThen_ok_iff, withCtx_ok_iff]

theorem LinearConstraintUpdatesValidForState_ok_iff
    (u : LinearConstraintUpdatesProto) (v : IdUpdateValidator) :
    LinearConstraintUpdatesValidForState u v = .ok () ↔
      v.CheckSortedIdsSubsetOfNotDeleted u.lower_bounds.ids = .ok () ∧
      v.CheckSortedIdsSubsetOfNotDeleted u.upper_bounds.ids = .ok () := by
  simp [LinearConstraintUpdatesValidForState, andThen_ok_iff, withCtx_ok_iff]

theorem LinearConstraintMatrixIdsValidForUpdate_ok_iff
    (m : SparseDoubleMatrixProto) (lcv vv : IdUpdateValidator) :
    LinearConstraintMatrixIdsValidForUpdate m lcv vv = .ok () ↔
      lcv.CheckSortedIdsSubsetOfFinal m.row_ids = .ok () ∧
      vv.CheckIdsSubsetOfFinal m.column_ids = .ok () := by
  simp [LinearConstraintMatrixIdsValidForUpdate, andThen_ok_iff,
    withCtx_ok_iff]

theorem ValidateModel_ok_iff (m : ModelProto) (cn : Bool) :
    ValidateModel m cn = .ok () ↔
      VariablesValid m.variables cn = .ok () ∧
      ObjectiveValid m.objective m.variables.ids = .ok () ∧
      LinearConstraintsValid m.linear_constraints cn = .ok () ∧
      SparseMatrixValid m.linear_constraint_matrix false = .ok () ∧
      SparseMatrixIdsAreKnown m.linear_constraint_matrix
        m.linear_constraints.ids m.variables.ids = .ok () := by
  simp [ValidateModel, andThen_ok_iff, withCtx_ok_iff]

theorem ValidateModelUpdate_ok_iff (u : ModelUpdateProto) (cn : Bool) :
    ValidateModelUpdate u cn = .ok () ↔
      CheckIdsRangeAndStrictlyIncreasing u.deleted_linear_constraint_ids
        = .ok () ∧
      CheckIdsRangeAndStrictlyIncreasing u.deleted_variable_ids = .ok () ∧
      VariableUpdatesValid u.variable_updates = .ok () ∧
      LinearConstraintUpdatesValid u.linear_constraint_updates = .ok () ∧
      VariablesValid u.new_variables cn = .ok () ∧
      LinearConstraintsValid u.new_linear_constraints cn = .ok () ∧
      ObjectiveUpdatesValid u.objective_updates = .ok () ∧
      SparseMatrixValid u.linear_constraint_matrix_updates false = .ok () := by
  simp [ValidateModelUpdate, andThen_ok_iff, withCtx_ok_iff]

theorem ValidateModelUpdateAndSummary_ok_iff (d : Bool)
    (u : ModelUpdateProto) (s : ModelSummary) (cn : Bool) :
    ValidateModelUpdateAndSummary d u s cn = .ok () ↔
      ValidateModelUpdate u d = .ok () ∧
      IdUpdateValidator.IsValid
        ⟨s.variables.ids, u.deleted_variable_ids, u.new_variables.ids⟩
        = .ok () ∧
      IdUpdateValidator.IsValid
        ⟨s.linear_constraints.ids, u.deleted_linear_constraint_ids,
          u.new_linear_constraints.ids⟩ = .ok () ∧
      VariableUpdatesValidForState u.variable_updates
        ⟨s.variables.ids, u.deleted_variable_ids, u.new_variables.ids⟩
        = .ok () ∧
      LinearConstraintUpdatesValidForState u.linear_constraint_updates
        ⟨s.linear_constraints.ids, u.deleted_linear_constraint_ids,
          u.new_linear_constraints.ids⟩ = .ok () ∧
      ObjectiveUpdatesValidForModel u.objective_updates
        ⟨s.variables.ids, u.deleted_variable_ids, u.new_variables.ids⟩
        = .ok () ∧
      LinearConstraintMatrixIdsValidForUpdate
        u.linear_constraint_matrix_updates
        ⟨s.linear_constraints.ids, u.deleted_linear_constraint_ids,
          u.new_linear_constraints.ids⟩
        ⟨s.variables.ids, u.deleted_variable_ids, u.new_variables.ids⟩
        = .ok () ∧
      (cn = true ∧ u.new_variables.names ≠ [] →
        CheckNewNames s.variables u.new_variables.names = .ok ()) ∧
      (cn = true ∧ u.new_linear_constraints.names ≠ [] →
        CheckNewNames s.linear_constraints u.new_linear_constraints.names
          = .ok ()) := by
  simp [ValidateModelUpdateAndSummary, andThen_ok_iff, withCtx_ok_iff,
    guard_status_ok_iff]

/-- The empty sparse vector. -/
def emptyDV : SparseDoubleVectorProto := ⟨[], []⟩

/-- The empty sparse matrix. -/
def emptyMat : SparseDoubleMatrixProto := ⟨[], [], []⟩

/-- The empty variables block. -/
def emptyVars : VariablesProto := ⟨[], [], [], [], []⟩

/-- The empty linear constraints block. -/
def emptyLCs : LinearConstraintsProto := ⟨[], [], [], []⟩

/-- The default objective: offset zero, no coefficients. -/
def emptyObjective : ObjectiveProto := ⟨.fin 0, emptyDV, emptyMat⟩

/-- The empty default snapshot. -/
def emptyModel : ModelProto := ⟨emptyVars, emptyObjective, emptyLCs, emptyMat⟩

/-- The empty patch: no deletions, no updates, no new entities. -/
def emptyUpdate : ModelUpdateProto :=
  ⟨[], [], ⟨emptyDV, emptyDV, emptyDV⟩, ⟨emptyDV, emptyDV⟩, emptyVars,
    emptyLCs, ⟨.fin 0, emptyDV, emptyMat⟩, emptyMat⟩

/-- A summary with no live entities. -/
def emptySummary : ModelSummary := ⟨⟨[], []⟩, ⟨[], []⟩⟩

/-- C9: for both values of the name-checking flag, `ValidateModel` succeeds on
the empty default snapshot — no variables, no linear constraints, objective
offset zero, and all sparse coefficient containers empty. -/
theorem c9_empty_model_validates :
    ValidateModel emptyModel true = .ok () ∧
      ValidateModel emptyModel false = .ok () := by
  exact ⟨by decide, by decide⟩

/-- The lifecycle tracker of the specification's testable-properties section:
existing `{1, 3, 5}`, deleted `{3}`, added `{6, 7}`. -/
def tracker135 : IdUpdateValidator := ⟨[1, 3, 5], [3], [6, 7]⟩

/-- C3: for every tracker and query sequence, the not-deleted query succeeds
exactly when every queried ID is in `existing` and not in `deleted`, and the
final query succeeds exactly when every queried ID is in
(`existing` minus `deleted`) union `added`; for existing `{1, 3, 5}`,
deleted `{3}`, added `{6, 7}`, the not-deleted query on `{1, 6}` fails while
the final query on `{1, 6}` succeeds. -/
theorem c3_lifecycle_queries :
    (∀ (v : IdUpdateValidator) (ids : List Int),
      (v.CheckSortedIdsSubsetOfNotDeleted ids = .ok () ↔
        ∀ i ∈ ids, i ∈ v.existing ∧ i ∉ v.deleted) ∧
      (v.CheckSortedIdsSubsetOfFinal ids = .ok () ↔
        ∀ i ∈ ids, (i ∈ v.existing ∧ i ∉ v.deleted) ∨ i ∈ v.added)) ∧
    tracker135.CheckSortedIdsSubsetOfNotDeleted [1, 6] ≠ .ok () ∧
    tracker135.CheckSortedIdsSubsetOfFinal [1, 6] = .ok () := by
  refine ⟨fun v ids => ⟨CheckSortedIdsSubsetOfNotDeleted_ok_iff v ids,
    CheckSortedIdsSubsetOfFinal_ok_iff v ids⟩, by decide, by decide⟩

/-- Witness for C3: the general equivalence applied to the concrete tracker at
the query `{1, 5}`, discharged by evaluation. -/
theorem c3_lifecycle_queries_witness :
    tracker135.CheckSortedIdsSubsetOfNotDeleted [1, 5] = .ok () :=
  (c3_lifecycle_queries.1 tracker135 [1, 5]).1.mpr (by decide)

/-- A tracker with an invalid deletion and an added/deleted overlap at once:
existing is empty, yet 4 is both deleted and added. -/
def trackerBothBad : IdUpdateValidator := ⟨[], [4], [4]⟩

/-- C4 counterexample: for existing `{}`, deleted `{4}`, added `{4}`, the
added list overlaps the deleted list (an `IdCollision` condition of the claim),
yet `IsValid` does not fail with `IdCollision` — invalid deletions are
diagnosed first, so it fails with `InvalidDeletion`. -/
theorem c4_counterexample :
    trackerBothBad.IsValid = .error ⟨.invalidDeletion, []⟩ ∧
    ((4 : Int) ∈ trackerBothBad.added ∧ (4 : Int) ∈ trackerBothBad.deleted ∧
      strictIncr trackerBothBad.added = true) ∧
    trackerBothBad.IsValid ≠ .error ⟨.idCollision, []⟩ := by
  exact ⟨by decide, by decide, by decide⟩

/-- C4 amended: `IsValid` fails with `InvalidDeletion` exactly when some entry
of `deleted` is missing from `existing` or `deleted` is not strictly
increasing; it fails with `IdCollision` exactly when the deletion list is fine
and some entry of `added` is already in `existing`, or `added` is not strictly
increasing, or `added` overlaps `deleted`; otherwise it succeeds. -/
theorem c4_isvalid_amended : ∀ v : IdUpdateValidator,
    (v.IsValid = .error ⟨.invalidDeletion, []⟩ ↔
      ¬ (strictIncr v.deleted = true ∧ ∀ d ∈ v.deleted, d ∈ v.existing)) ∧
    (v.IsValid = .error ⟨.idCollision, []⟩ ↔
      (strictIncr v.deleted = true ∧ ∀ d ∈ v.deleted, d ∈ v.existing) ∧
      ¬ (strictIncr v.added = true ∧ (∀ a ∈ v.added, a ∉ v.existing) ∧
        ∀ a ∈ v.added, a ∉ v.deleted)) ∧
    (v.IsValid = .ok () ↔
      (strictIncr v.deleted = true ∧ ∀ d ∈ v.deleted, d ∈ v.existing) ∧
      (strictIncr v.added = true ∧ (∀ a ∈ v.added, a ∉ v.existing) ∧
        ∀ a ∈ v.added, a ∉ v.deleted)) := by
  intro v
  exact ⟨IsValid_invalidDeletion_iff v, IsValid_idCollision_iff v,
    IsValid_ok_iff v⟩

/-- Witness for the amended C4: deleting 4 when 4 is not among the existing
IDs yields `InvalidDeletion`, and adding 3 when 3 is already live yields
`IdCollision`, both obtained through the amended equivalence. -/
theorem c4_isvalid_amended_witness :
    IdUpdateValidator.IsValid ⟨[1, 2], [4], []⟩ =
        .error ⟨.invalidDeletion, []⟩ ∧
      IdUpdateValidator.IsValid ⟨[1, 2, 3], [], [3]⟩ =
        .error ⟨.idCollision, []⟩ :=
  ⟨(c4_isvalid_amended ⟨[1, 2], [4], []⟩).1.mpr (by decide),
    (c4_isvalid_amended ⟨[1, 2, 3], [], [3]⟩).2.1.mpr (by decide)⟩

/-- A patch whose new-variables block carries the duplicate names
`["x", "x"]` (rejected only when names are checked) and whose objective
offset delta is NaN (rejected regardless of the flag). -/
def c1patch : ModelUpdateProto :=
  { emptyUpdate with
    new_variables :=
      ⟨[0, 1], [.fin 0, .fin 0], [.fin 1, .fin 1], [.fin 0, .fin 0],
        ["x", "x"]⟩,
    objective_updates := ⟨.nan, emptyDV, emptyMat⟩ }

/-- C1 counterexample: whichever value the header's default for `check_names`
has, `ValidateModelUpdateAndSummary(patch, summary, checkNames)` does not
return the failure of `ValidateModelUpdate(patch, checkNames)`.  With default
`true` and `checkNames = false`, the structural stage run by the composite
rejects the duplicate new-variable names, although
`ValidateModelUpdate(patch, false)` fails on the NaN offset delta; with
default `false` and `checkNames = true`, `ValidateModelUpdate(patch, true)`
fails on the duplicate names, but the composite returns the NaN failure of
the default-flag run instead. -/
theorem c1_counterexample :
    (ValidateModelUpdate c1patch false =
        .error ⟨.invalidValue,
          ["ModelUpdateProto.objective_update invalid",
            "Offset update invalid"]⟩ ∧
      ValidateModelUpdateAndSummary true c1patch emptySummary false ≠
        .error ⟨.invalidValue,
          ["ModelUpdateProto.objective_update invalid",
            "Offset update invalid"]⟩) ∧
    (ValidateModelUpdate c1patch true =
        .error ⟨.duplicateName,
          ["ModelUpdateProto.new_variables invalid"]⟩ ∧
      ValidateModelUpdateAndSummary false c1patch emptySummary true ≠
        .error ⟨.duplicateName,
          ["ModelUpdateProto.new_variables invalid"]⟩) := by
  exact ⟨⟨by decide, by decide⟩, ⟨by decide, by decide⟩⟩

/-- C1 amended: `ValidateModelUpdateAndSummary` first runs
`ValidateModelUpdate` with the `check_names` default of the function's
declaration (the call site passes no flag), not with the caller's flag;
whenever that default-flag run fails, the composite returns that failure
unchanged, and the composite succeeds only if that default-flag run
succeeds. -/
theorem c1_amended_default_flag :
    ∀ (hdrDefault : Bool) (u : ModelUpdateProto) (s : ModelSummary)
      (check_names : Bool),
    (∀ e, ValidateModelUpdate u hdrDefault = .error e →
      ValidateModelUpdateAndSummary hdrDefault u s check_names = .error e) ∧
    (ValidateModelUpdateAndSummary hdrDefault u s check_names = .ok () →
      ValidateModelUpdate u hdrDefault = .ok ()) := by
  intro d u s cn
  constructor
  · intro e h
    unfold ValidateModelUpdateAndSummary
    exact andThen_error_left _ h
  · intro h
    exact ((ValidateModelUpdateAndSummary_ok_iff d u s cn).mp h).1

/-- Witness for the amended C1: with default `false`, the composite propagates
the NaN failure of the structural stage unchanged. -/
theorem c1_amended_default_flag_witness :
    ValidateModelUpdateAndSummary false c1patch emptySummary true =
      .error ⟨.invalidValue,
        ["ModelUpdateProto.objective_update invalid",
          "Offset update invalid"]⟩ :=
  (c1_amended_default_flag false c1patch emptySummary true).1
    ⟨.invalidValue,
      ["ModelUpdateProto.objective_update invalid",
        "Offset update invalid"]⟩ (by decide)

/-- The end-to-end snapshot of the specification: variables `{0, 1}` with
bounds `[0, 1]` and `[0, inf]`, objective linear coefficients
`{0: 1.0, 1: 2.0}`, one constraint with bounds `[-inf, 5]`, and matrix
entries `(0,0) = 1` and `(0,1) = 1`. -/
def c2model : ModelProto :=
  { «variables» := ⟨[0, 1], [.fin 0, .fin 0], [.fin 1, .posInf], [], []⟩,
    objective := ⟨.fin 0, ⟨[0, 1], [.fin 1, .fin 2]⟩, emptyMat⟩,
    linear_constraints := ⟨[0], [.negInf], [.fin 5], []⟩,
    linear_constraint_matrix := ⟨[0, 0], [0, 1], [.fin 1, .fin 1]⟩ }

/-- The end-to-end snapshot with variable 1's upper bound changed to minus
infinity. -/
def c2modelUbNegInf : ModelProto :=
  { c2model with
    «variables» := ⟨[0, 1], [.fin 0, .fin 0], [.fin 1, .negInf], [], []⟩ }

/-- The end-to-end snapshot with variable 0's lower bound changed to NaN. -/
def c2modelNaN : ModelProto :=
  { c2model with
    «variables» := ⟨[0, 1], [.nan, .fin 0], [.fin 1, .posInf], [], []⟩ }

/-- The end-to-end snapshot with variable 0's lower bound changed to plus
infinity. -/
def c2modelLbPosInf : ModelProto :=
  { c2model with
    «variables» := ⟨[0, 1], [.posInf, .fin 0], [.fin 1, .posInf], [], []⟩ }

/-- C2: `ValidateModel` rejects any snapshot with a NaN bound, a lower bound
equal to plus infinity, or an upper bound equal to minus infinity, on
variables as well as on constraints; the failure on such a bound carries the
`InvalidValue` kind; minus-infinity lower bounds and plus-infinity upper
bounds are accepted, and the specification's end-to-end snapshot (variable
bounds `[0, 1]` and `[0, inf]`, one constraint with bounds `[-inf, 5]`)
validates under both name-checking flags. -/
theorem c2_bound_value_policy :
    (∀ (m : ModelProto) (cn : Bool),
      (FVal.nan ∈ m.variables.lower_bounds ∨
        FVal.posInf ∈ m.variables.lower_bounds ∨
        FVal.nan ∈ m.variables.upper_bounds ∨
        FVal.negInf ∈ m.variables.upper_bounds ∨
        FVal.nan ∈ m.linear_constraints.lower_bounds ∨
        FVal.posInf ∈ m.linear_constraints.lower_bounds ∨
        FVal.nan ∈ m.linear_constraints.upper_bounds ∨
        FVal.negInf ∈ m.linear_constraints.upper_bounds) →
      ValidateModel m cn ≠ .ok ()) ∧
    ValidateModel c2model true = .ok () ∧
    ValidateModel c2model false = .ok () ∧
    FVal.posInf ∈ c2model.variables.upper_bounds ∧
    FVal.negInf ∈ c2model.linear_constraints.lower_bounds ∧
    ValidateModel c2modelNaN true =
      .error ⟨.invalidValue,
        ["Model.variables are invalid.", "lower_bounds"]⟩ ∧
    ValidateModel c2modelLbPosInf true =
      .error ⟨.invalidValue,
        ["Model.variables are invalid.", "lower_bounds"]⟩ ∧
    ValidateModel c2modelUbNegInf true =
      .error ⟨.invalidValue,
        ["Model.variables are invalid.", "upper_bounds"]⟩ := by
  refine ⟨?_, by decide, by decide, by decide, by decide, by decide,
    by decide, by decide⟩
  intro m cn h hok
  rw [ValidateModel_ok_iff] at hok
  obtain ⟨hv, -, hlc, -, -⟩ := hok
  rw [VariablesValid_ok_iff] at hv
  obtain ⟨-, hvl, hvu, -, -⟩ := hv
  rw [LinearConstraintsValid_ok_iff] at hlc
  obtain ⟨-, hcl, hcu, -⟩ := hlc
  rw [CheckValues_ok_iff] at hvl hvu hcl hcu
  rcases h with h | h | h | h | h | h | h | h
  · have := hvl _ h; simp [FVal.okFor] at this
  · have := hvl _ h; simp [FVal.okFor, optNoPosInf] at this
  · have := hvu _ h; simp [FVal.okFor] at this
  · have := hvu _ h; simp [FVal.okFor, optNoNegInf] at this
  · have := hcl _ h; simp [FVal.okFor] at this
  · have := hcl _ h; simp [FVal.okFor, optNoPosInf] at this
  · have := hcu _ h; simp [FVal.okFor] at this
  · have := hcu _ h; simp [FVal.okFor, optNoNegInf] at this

/-- Witness for C2: the rejection rule applied to the concrete snapshot with
a NaN lower bound. -/
theorem c2_bound_value_policy_witness :
    ValidateModel c2modelNaN false ≠ .ok () :=
  c2_bound_value_policy.1 c2modelNaN false (by decide)

/-- C6: `ValidateModel` runs variables, then objective, then linear
constraints, then constraint-matrix shape, then constraint-matrix cross
references; the first failing section's error is returned wrapped with that
section's label (for example an objective failure carries
"Model.objective is invalid"), later sections contribute nothing to the
result, and if every section passes the model is accepted. -/
theorem c6_validate_model_sequencing : ∀ (m : ModelProto) (cn : Bool),
    (∀ e, VariablesValid m.variables cn = .error e →
      ValidateModel m cn = .error (e.push "Model.variables are invalid.")) ∧
    (VariablesValid m.variables cn = .ok () →
      ∀ e, ObjectiveValid m.objective m.variables.ids = .error e →
        ValidateModel m cn = .error (e.push "Model.objective is invalid")) ∧
    (VariablesValid m.variables cn = .ok () →
      ObjectiveValid m.objective m.variables.ids = .ok () →
      ∀ e, LinearConstraintsValid m.linear_constraints cn = .error e →
        ValidateModel m cn =
          .error (e.push "Model.linear_constraints are invalid")) ∧
    (VariablesValid m.variables cn = .ok () →
      ObjectiveValid m.objective m.variables.ids = .ok () →
      LinearConstraintsValid m.linear_constraints cn = .ok () →
      ∀ e, SparseMatrixValid m.linear_constraint_matrix false = .error e →
        ValidateModel m cn =
          .error (e.push "Model.linear_constraint_matrix invalid")) ∧
    (VariablesValid m.variables cn = .ok () →
      ObjectiveValid m.objective m.variables.ids = .ok () →
      LinearConstraintsValid m.linear_constraints cn = .ok () →
      SparseMatrixValid m.linear_constraint_matrix false = .ok () →
      ∀ e, SparseMatrixIdsAreKnown m.linear_constraint_matrix
          m.linear_constraints.ids m.variables.ids = .error e →
        ValidateModel m cn =
          .error
            (e.push "Model.linear_constraint_matrix ids are inconsistent")) ∧
    (VariablesValid m.variables cn = .ok () →
      ObjectiveValid m.objective m.variables.ids = .ok () →
      LinearConstraintsValid m.linear_constraints cn = .ok () →
      SparseMatrixValid m.linear_constraint_matrix false = .ok () →
      SparseMatrixIdsAreKnown m.linear_constraint_matrix
        m.linear_constraints.ids m.variables.ids = .ok () →
      ValidateModel m cn = .ok ()) := by
  intro m cn
  refine ⟨?_, ?_, ?_, ?_, ?_, ?_⟩
  · intro e h
    unfold ValidateModel
    rw [h]; rfl
  · intro h1 e h
    unfold ValidateModel
    rw [h1, h]; rfl
  · intro h1 h2 e h
    unfold ValidateModel
    rw [h1, h2, h]; rfl
  · intro h1 h2 h3 e h
    unfold ValidateModel
    rw [h1, h2, h3, h]; rfl
  · intro h1 h2 h3 h4 e h
    unfold ValidateModel
    rw [h1, h2, h3, h4, h]; rfl
  · intro h1 h2 h3 h4 h5
    unfold ValidateModel
    rw [h1, h2, h3, h4, h5]; rfl

/-- A snapshot whose only defect is a NaN objective offset: the failure is
diagnosed by the objective section. -/
def c6model : ModelProto :=
  { emptyModel with objective := ⟨.nan, emptyDV, emptyMat⟩ }

/-- Witness for C6: on the snapshot whose objective offset is NaN, the result
is exactly the objective failure wrapped with "Model.objective is invalid". -/
theorem c6_validate_model_sequencing_witness :
    ValidateModel c6model true =
      .error ⟨.invalidValue,
        ["Model.objective is invalid", "Objective offset invalid"]⟩ :=
  (c6_validate_model_sequencing c6model true).2.1 (by decide)
    ⟨.invalidValue, ["Objective offset invalid"]⟩ (by decide)

/-- A snapshot whose quadratic objective has the diagonal entry `(0, 0)` and
the strictly-upper entry `(0, 1)`. -/
def c7diagModel : ModelProto :=
  { «variables» := ⟨[0, 1], [.fin 0, .fin 0], [.fin 1, .fin 1], [], []⟩,
    objective := ⟨.fin 0, emptyDV, ⟨[0, 0], [0, 1], [.fin 1, .fin 1]⟩⟩,
    linear_constraints := emptyLCs,
    linear_constraint_matrix := emptyMat }

/-- The same snapshot with a strictly-lower quadratic entry `(1, 0)`. -/
def c7badModel : ModelProto :=
  { c7diagModel with
    objective := ⟨.fin 0, emptyDV, ⟨[1], [0], [.fin 1]⟩⟩ }

/-- A patch whose quadratic objective delta holds the diagonal entry `(0, 0)`
and the strictly-upper entry `(0, 1)`. -/
def c7diagUpdate : ModelUpdateProto :=
  { emptyUpdate with
    objective_updates := ⟨.fin 0, emptyDV, ⟨[0, 0], [0, 1],
      [.fin 1, .fin 1]⟩⟩ }

/-- The same patch with a strictly-lower quadratic entry `(1, 0)`. -/
def c7badUpdate : ModelUpdateProto :=
  { emptyUpdate with
    objective_updates := ⟨.fin 0, emptyDV, ⟨[1], [0], [.fin 1]⟩⟩ }

/-- C7: a quadratic-objective entry whose row ID strictly exceeds its column
ID makes `ValidateModel` (respectively `ValidateModelUpdate`) fail — on
otherwise-valid inputs with the `ShapeViolation` kind — while diagonal
entries (row equal to column) are accepted: the upper-triangular convention
is row at most column, not strict. -/
theorem c7_quadratic_upper_triangular :
    (∀ (m : ModelProto) (cn : Bool),
      (∃ p ∈ m.objective.quadratic_coefficients.row_ids.zip
          m.objective.quadratic_coefficients.column_ids, p.2 < p.1) →
      ValidateModel m cn ≠ .ok ()) ∧
    (∀ (u : ModelUpdateProto) (cn : Bool),
      (∃ p ∈ u.objective_updates.quadratic_coefficients.row_ids.zip
          u.objective_updates.quadratic_coefficients.column_ids, p.2 < p.1) →
      ValidateModelUpdate u cn ≠ .ok ()) ∧
    ValidateModel c7diagModel true = .ok () ∧
    ValidateModelUpdate c7diagUpdate true = .ok () ∧
    ValidateModel c7badModel true =
      .error ⟨.shapeViolation,
        ["Model.objective is invalid",
          "Objective.quadratic_coefficients invalid"]⟩ ∧
    ValidateModelUpdate c7badUpdate true =
      .error ⟨.shapeViolation,
        ["ModelUpdateProto.objective_update invalid",
          "Objective.quadratic_coefficients invalid"]⟩ := by
  refine ⟨?_, ?_, by decide, by decide, by decide, by decide⟩
  · intro m cn h hok
    obtain ⟨p, hp, hlt⟩ := h
    rw [ValidateModel_ok_iff] at hok
    have hobj := hok.2.1
    rw [ObjectiveValid_ok_iff] at hobj
    have hq := hobj.2.2.2.1
    rw [SparseMatrixValid_ok_iff] at hq
    exact absurd (hq.2.2.2 rfl p hp) (not_le.mpr hlt)
  · intro u cn h hok
    obtain ⟨p, hp, hlt⟩ := h
    rw [ValidateModelUpdate_ok_iff] at hok
    have hobj := hok.2.2.2.2.2.2.1
    rw [ObjectiveUpdatesValid_ok_iff] at hobj
    have hq := hobj.2.2
    rw [SparseMatrixValid_ok_iff] at hq
    exact absurd (hq.2.2.2 rfl p hp) (not_le.mpr hlt)

/-- Witness for C7: the rejection rules applied to the concrete strictly-lower
snapshot and patch. -/
theorem c7_quadratic_upper_triangular_witness :
    ValidateModel c7badModel false ≠ .ok () ∧
      ValidateModelUpdate c7badUpdate false ≠ .ok () :=
  ⟨c7_quadratic_upper_triangular.1 c7badModel false
      ⟨(1, 0), by decide, by decide⟩,
    c7_quadratic_upper_triangular.2.1 c7badUpdate false
      ⟨(1, 0), by decide, by decide⟩⟩

/-- A prior summary with live variables `{0, 1}` and no constraints. -/
def c5summary : ModelSummary := ⟨⟨[0, 1], []⟩, ⟨[], []⟩⟩

/-- A patch that adds variable 2 and updates the objective linear coefficient
of ID 2, which exists only in the patch, not in the prior summary. -/
def c5patch : ModelUpdateProto :=
  { emptyUpdate with
    new_variables := ⟨[2], [.fin 0], [.fin 1], [.fin 0], []⟩,
    objective_updates := ⟨.fin 0, ⟨[2], [.fin 1]⟩, emptyMat⟩ }

/-- A patch that adds linear constraint 1 and variable 2, and whose
constraint-matrix delta holds the single entry (constraint 1, variable 2) —
both endpoints exist only in the patch, not in the prior summary. -/
def c5matrixPatch : ModelUpdateProto :=
  { emptyUpdate with
    new_variables := ⟨[2], [.fin 0], [.fin 1], [.fin 0], []⟩,
    new_linear_constraints := ⟨[1], [.fin 0], [.fin 1], []⟩,
    linear_constraint_matrix_updates := ⟨[1], [2], [.fin 1]⟩ }

/-- C5: in `ValidateModelUpdateAndSummary`, variable bound/integrality and
constraint bound updates are checked against the not-deleted view — if any
such update is keyed by a deleted or never-existing ID the patch is rejected
for every header default and every flag — whereas objective-coefficient
updates and constraint-matrix updates are checked against the final view:
any of their IDs outside the final universe forces rejection, and a patch
may reference IDs newly added by the same patch — the patch adding variable
2 with an objective linear-coefficient update on ID 2 is accepted, and so is
the patch whose matrix delta entry (1, 2) names a newly added constraint and
a newly added variable, although neither ID is in the prior summary (the
not-deleted view contains neither). -/
theorem c5_update_temporal_views :
    (∀ (d : Bool) (u : ModelUpdateProto) (s : ModelSummary) (cn : Bool),
      ((¬ ∀ i ∈ u.variable_updates.lower_bounds.ids,
          i ∈ s.variables.ids ∧ i ∉ u.deleted_variable_ids) ∨
        (¬ ∀ i ∈ u.variable_updates.upper_bounds.ids,
          i ∈ s.variables.ids ∧ i ∉ u.deleted_variable_ids) ∨
        (¬ ∀ i ∈ u.variable_updates.integers.ids,
          i ∈ s.variables.ids ∧ i ∉ u.deleted_variable_ids) ∨
        (¬ ∀ i ∈ u.linear_constraint_updates.lower_bounds.ids,
          i ∈ s.linear_constraints.ids ∧
            i ∉ u.deleted_linear_constraint_ids) ∨
        (¬ ∀ i ∈ u.linear_constraint_updates.upper_bounds.ids,
          i ∈ s.linear_constraints.ids ∧
            i ∉ u.deleted_linear_constraint_ids)) →
      ValidateModelUpdateAndSummary d u s cn ≠ .ok ()) ∧
    (∀ (d : Bool) (u : ModelUpdateProto) (s : ModelSummary) (cn : Bool),
      ((¬ ∀ i ∈ u.objective_updates.linear_coefficients.ids,
          (i ∈ s.variables.ids ∧ i ∉ u.deleted_variable_ids) ∨
            i ∈ u.new_variables.ids) ∨
        (¬ ∀ i ∈ u.linear_constraint_matrix_updates.row_ids,
          (i ∈ s.linear_constraints.ids ∧
            i ∉ u.deleted_linear_constraint_ids) ∨
            i ∈ u.new_linear_constraints.ids) ∨
        (¬ ∀ i ∈ u.linear_constraint_matrix_updates.column_ids,
          (i ∈ s.variables.ids ∧ i ∉ u.deleted_variable_ids) ∨
            i ∈ u.new_variables.ids)) →
      ValidateModelUpdateAndSummary d u s cn ≠ .ok ()) ∧
    (∀ d cn, ValidateModelUpdateAndSummary d c5patch c5summary cn
      = .ok ()) ∧
    (∀ d cn, ValidateModelUpdateAndSummary d c5matrixPatch c5summary cn
      = .ok ()) ∧
    (2 : Int) ∉ c5summary.variables.ids ∧
    (2 : Int) ∈ c5patch.objective_updates.linear_coefficients.ids ∧
    (2 : Int) ∈ c5patch.new_variables.ids ∧
    (1 : Int) ∉ c5summary.linear_constraints.ids ∧
    (1 : Int) ∈ c5matrixPatch.linear_constraint_matrix_updates.row_ids ∧
    (1 : Int) ∈ c5matrixPatch.new_linear_constraints.ids ∧
    (2 : Int) ∈ c5matrixPatch.linear_constraint_matrix_updates.column_ids ∧
    (2 : Int) ∈ c5matrixPatch.new_variables.ids := by
  refine ⟨?_, ?_, ?_, ?_, by decide, by decide, by decide, by decide,
    by decide, by decide, by decide, by decide⟩
  · intro d u s cn h hok
    rw [ValidateModelUpdateAndSummary_ok_iff] at hok
    have hvu := hok.2.2.2.1
    have hcu := hok.2.2.2.2.1
    rw [VariableUpdatesValidForState_ok_iff] at hvu
    rw [LinearConstraintUpdatesValidForState_ok_iff] at hcu
    obtain ⟨h1, h2, h3⟩ := hvu
    obtain ⟨h4, h5⟩ := hcu
    rw [CheckSortedIdsSubsetOfNotDeleted_ok_iff] at h1 h2 h3 h4 h5
    rcases h with h | h | h | h | h
    · exact h h1
    · exact h h2
    · exact h h3
    · exact h h4
    · exact h h5
  · intro d u s cn h hok
    rw [ValidateModelUpdateAndSummary_ok_iff] at hok
    have hobj := hok.2.2.2.2.2.1
    have hmat := hok.2.2.2.2.2.2.1
    rw [ObjectiveUpdatesValidForModel_ok_iff] at hobj
    rw [LinearConstraintMatrixIdsValidForUpdate_ok_iff] at hmat
    have h1 := hobj.1
    have h2 := hmat.1
    have h3 := hmat.2
    rw [CheckSortedIdsSubsetOfFinal_ok_iff] at h1 h2
    rw [CheckIdsSubsetOfFinal_ok_iff] at h3
    rcases h with h | h | h
    · exact h h1
    · exact h h2
    · exact h h3
  · intro d cn
    cases d <;> cases cn <;> decide
  · intro d cn
    cases d <;> cases cn <;> decide

/-- Witness for C5: a lower-bound update keyed by variable 7 (neither live
nor added) is rejected through the not-deleted rule, and a matrix delta whose
row names constraint 3 (outside the final constraint universe) is rejected
through the final-view rule. -/
theorem c5_update_temporal_views_witness :
    (ValidateModelUpdateAndSummary true
      { emptyUpdate with
        variable_updates := ⟨⟨[7], [.fin 0]⟩, emptyDV, emptyDV⟩ }
      c5summary true ≠ .ok ()) ∧
    (ValidateModelUpdateAndSummary true
      { emptyUpdate with
        linear_constraint_matrix_updates := ⟨[3], [0], [.fin 1]⟩ }
      c5summary true ≠ .ok ()) :=
  ⟨c5_update_temporal_views.1 true
      { emptyUpdate with
        variable_updates := ⟨⟨[7], [.fin 0]⟩, emptyDV, emptyDV⟩ }
      c5summary true (by decide),
    c5_update_temporal_views.2.1 true
      { emptyUpdate with
        linear_constraint_matrix_updates := ⟨[3], [0], [.fin 1]⟩ }
      c5summary true (by decide)⟩

/-- An ID sequence is well formed when every entry is in range and the
sequence is strictly increasing. -/
def IdsWellFormed (ids : List Int) : Prop :=
  (∀ i ∈ ids, 0 ≤ i ∧ i ≤ kMaxId) ∧ strictIncr ids = true

/-- A sparse vector is well formed for a policy when its ID sequence is well
formed and every value satisfies the policy. -/
def SparseVectorWellFormed (v : SparseDoubleVectorProto)
    (o : DoubleOptions) : Prop :=
  IdsWellFormed v.ids ∧ ∀ x ∈ v.values, x.okFor o = true

/-- A sparse matrix is well formed when its three arrays have equal length,
its IDs are non-negative, no (row, column) pair repeats and, when required,
every entry lies on or above the diagonal. -/
def MatrixWellFormed (m : SparseDoubleMatrixProto) (upper : Bool) : Prop :=
  (m.row_ids.length = m.column_ids.length ∧
    m.column_ids.length = m.coefficients.length) ∧
  ((∀ r ∈ m.row_ids, 0 ≤ r) ∧ (∀ c ∈ m.column_ids, 0 ≤ c)) ∧
  (m.row_ids.zip m.column_ids).Nodup ∧
  (upper = true → ∀ p ∈ m.row_ids.zip m.column_ids, p.1 ≤ p.2)

/-- A new-variables block is well formed when its IDs are well formed, its
bounds and integrality values satisfy their policies, and its name vector is
aligned and (when names are checked) duplicate free. -/
def NewVariablesWellFormed (v : VariablesProto) (cn : Bool) : Prop :=
  IdsWellFormed v.ids ∧
  (∀ x ∈ v.lower_bounds, x.okFor optNoPosInf = true) ∧
  (∀ x ∈ v.upper_bounds, x.okFor optNoNegInf = true) ∧
  (∀ x ∈ v.integers, x.okFor defaultDoubleOptions = true) ∧
  (v.names = [] ∨ v.names.length = v.ids.length) ∧
  (cn = true → v.names.Nodup)

/-- A new-linear-constraints block is well formed when its IDs are well
formed, its bounds satisfy their policies, and its name vector is aligned and
(when names are checked) duplicate free. -/
def NewLinearConstraintsWellFormed (lc : LinearConstraintsProto)
    (cn : Bool) : Prop :=
  IdsWellFormed lc.ids ∧
  (∀ x ∈ lc.lower_bounds, x.okFor optNoPosInf = true) ∧
  (∀ x ∈ lc.upper_bounds, x.okFor optNoNegInf = true) ∧
  (lc.names = [] ∨ lc.names.length = lc.ids.length) ∧
  (cn = true → lc.names.Nodup)

/-- Structural well-formedness of a patch in isolation: deletion lists are
in-range and strictly increasing, every field-update block has well-formed
IDs and policy-conforming values, the new-entity blocks pass the per-kind
snapshot checks, the objective deltas are finite with an upper-triangular
quadratic block, and the constraint-matrix delta is a well-formed sparse
matrix.  No condition mentions any prior model state. -/
def StructurallyWellFormed (u : ModelUpdateProto) (cn : Bool) : Prop :=
  IdsWellFormed u.deleted_linear_constraint_ids ∧
  IdsWellFormed u.deleted_variable_ids ∧
  (SparseVectorWellFormed u.variable_updates.lower_bounds optNoPosInf ∧
    SparseVectorWellFormed u.variable_updates.upper_bounds optNoNegInf ∧
    SparseVectorWellFormed u.variable_updates.integers
      defaultDoubleOptions) ∧
  (SparseVectorWellFormed u.linear_constraint_updates.lower_bounds
      optNoPosInf ∧
    SparseVectorWellFormed u.linear_constraint_updates.upper_bounds
      optNoNegInf) ∧
  NewVariablesWellFormed u.new_variables cn ∧
  NewLinearConstraintsWellFormed u.new_linear_constraints cn ∧
  ((∃ z, u.objective_updates.offset_update = .fin z) ∧
    SparseVectorWellFormed u.objective_updates.linear_coefficients optNoInf ∧
    MatrixWellFormed u.objective_updates.quadratic_coefficients true) ∧
  MatrixWellFormed u.linear_constraint_matrix_updates false

theorem IdsWellFormed_iff (ids : List Int) :
    CheckIdsRangeAndStrictlyIncreasing ids = .ok () ↔ IdsWellFormed ids := by
  rw [CheckIdsRangeAndStrictlyIncreasing_ok_iff]; exact Iff.rfl

theorem SparseVectorWellFormed_iff (v : SparseDoubleVectorProto)
    (o : DoubleOptions) :
    CheckIdsAndValues v.ids v.values o = .ok () ↔
      SparseVectorWellFormed v o := by
  rw [CheckIdsAndValues_ok_iff]; exact Iff.rfl

theorem MatrixWellFormed_iff (m : SparseDoubleMatrixProto) (upper : Bool) :
    SparseMatrixValid m upper = .ok () ↔ MatrixWellFormed m upper := by
  rw [SparseMatrixValid_ok_iff]; exact Iff.rfl

theorem NewVariablesWellFormed_iff (v : VariablesProto) (cn : Bool) :
    VariablesValid v cn = .ok () ↔ NewVariablesWellFormed v cn := by
  simp only [VariablesValid_ok_iff, CheckIdsRangeAndStrictlyIncreasing_ok_iff,
    CheckValues_ok_iff, CheckNameVector_ok_iff]
  exact Iff.rfl

theorem NewLinearConstraintsWellFormed_iff (lc : LinearConstraintsProto)
    (cn : Bool) :
    LinearConstraintsValid lc cn = .ok () ↔
      NewLinearConstraintsWellFormed lc cn := by
  simp only [LinearConstraintsValid_ok_iff,
    CheckIdsRangeAndStrictlyIncreasing_ok_iff, CheckValues_ok_iff,
    CheckNameVector_ok_iff]
  exact Iff.rfl

/-- A patch whose three field-update blocks are keyed by IDs 5, 9 and 12,
which exist in no model. -/
def c8patch : ModelUpdateProto :=
  { emptyUpdate with
    variable_updates := ⟨⟨[5], [.fin 3]⟩, emptyDV, emptyDV⟩,
    linear_constraint_updates := ⟨⟨[9], [.fin 1]⟩, emptyDV⟩,
    objective_updates := ⟨.fin 0, ⟨[12], [.fin 2]⟩, emptyMat⟩ }

/-- C8: `ValidateModelUpdate` depends only on the patch and the name-checking
flag — it succeeds exactly on structurally well-formed patches, a condition
that mentions no prior model state, and in particular accepts a patch whose
field-update blocks are keyed by IDs that exist in no model. -/
theorem c8_update_structural_only :
    (∀ (u : ModelUpdateProto) (cn : Bool),
      ValidateModelUpdate u cn = .ok () ↔ StructurallyWellFormed u cn) ∧
    ValidateModelUpdate c8patch true = .ok () ∧
    c8patch.variable_updates.lower_bounds.ids = [5] ∧
    c8patch.linear_constraint_updates.lower_bounds.ids = [9] ∧
    c8patch.objective_updates.linear_coefficients.ids = [12] := by
  refine ⟨?_, by decide, by decide, by decide, by decide⟩
  intro u cn
  simp only [ValidateModelUpdate_ok_iff, IdsWellFormed_iff,
    VariableUpdatesValid_ok_iff, LinearConstraintUpdatesValid_ok_iff,
    ObjectiveUpdatesValid_ok_iff, SparseVectorWellFormed_iff,
    NewVariablesWellFormed_iff, NewLinearConstraintsWellFormed_iff,
    MatrixWellFormed_iff, CheckScalarNoNanNoInf_ok_iff]
  exact Iff.rfl

/-- Witness for C8: the equivalence applied to the concrete patch keyed by
IDs of no model, discharged by evaluation. -/
theorem c8_update_structural_only_witness :
    StructurallyWellFormed c8patch true :=
  (c8_update_structural_only.1 c8patch true).mp (by decide)

/-- A snapshot whose constraint matrix holds the entry (constraint 1,
variable 0): the row ID exceeds the column ID. -/
def c10model : ModelProto :=
  { «variables» := ⟨[0, 1], [.fin 0, .fin 0], [.fin 1, .fin 1], [], []⟩,
    objective := emptyObjective,
    linear_constraints := ⟨[0, 1], [.fin 0, .fin 0], [.fin 1, .fin 1], []⟩,
    linear_constraint_matrix := ⟨[1], [0], [.fin 1]⟩ }

/-- A patch whose constraint-matrix delta holds the entry (1, 0). -/
def c10update : ModelUpdateProto :=
  { emptyUpdate with linear_constraint_matrix_updates := ⟨[1], [0],
      [.fin 1]⟩ }

/-- C10: the linear constraint matrix is not required to be upper triangular:
without enforcement the sparse-matrix shape check is insensitive to the
triangular condition, and both `ValidateModel` and `ValidateModelUpdate`
accept constraint-matrix entries whose row (constraint) ID exceeds their
column (variable) ID. -/
theorem c10_constraint_matrix_not_triangular :
    (∀ mat : SparseDoubleMatrixProto,
      SparseMatrixValid mat false = .ok () ↔
        (mat.row_ids.length = mat.column_ids.length ∧
          mat.column_ids.length = mat.coefficients.length) ∧
        ((∀ r ∈ mat.row_ids, 0 ≤ r) ∧ (∀ c ∈ mat.column_ids, 0 ≤ c)) ∧
        (mat.row_ids.zip mat.column_ids).Nodup) ∧
    ValidateModel c10model true = .ok () ∧
    ValidateModelUpdate c10update true = .ok () ∧
    (∃ p ∈ c10model.linear_constraint_matrix.row_ids.zip
      c10model.linear_constraint_matrix.column_ids, p.2 < p.1) ∧
    (∃ p ∈ c10update.linear_constraint_matrix_updates.row_ids.zip
      c10update.linear_constraint_matrix_updates.column_ids, p.2 < p.1) := by
  refine ⟨?_, by decide, by decide, ⟨(1, 0), by decide, by decide⟩,
    ⟨(1, 0), by decide, by decide⟩⟩
  intro mat
  rw [SparseMatrixValid_ok_iff]
  simp

/-- Witness for C10: the enforcement-free shape equivalence applied to the
concrete strictly-lower matrix. -/
theorem c10_constraint_matrix_not_triangular_witness :
    SparseMatrixValid ⟨[1], [0], [.fin 1]⟩ false = .ok () :=
  (c10_constraint_matrix_not_triangular.1 ⟨[1], [0], [.fin 1]⟩).mpr
    (by decide)
